import Mathlib

/-!
Verification of the activity-driven mode controller of the Apple Touch Bar
driver (`src/drivers/hid/apple-touchbar/apple-ib-tb.c`) against its
natural-language specification.

The driver state (`struct appletb_device`), the sysfs store/show handlers and
the HID lifecycle callbacks (`appletb_probe`, `appletb_remove`,
`appletb_suspend`, `appletb_reset_resume`) are embedded shallowly from the C
source.  Kernel primitives are embedded with their documented semantics:
`kzalloc` zero-fills, `sscanf("%u")` follows the kernel `vsscanf`
implementation (an unsigned conversion skips leading white space and then
requires a decimal digit, so a leading minus sign yields zero conversions),
`cancel_delayed_work_sync` clears the pending flag, and
`schedule_delayed_work` sets it unless the work is already queued.

The `Evaluate` state-machine policy and `NotifyActivity` are not present in
the source tree (the deferred work item is created with a NULL callback and no
worker function exists); those are modelled from the spec and marked as such.
-/

namespace AppleIbTb

/-- Kernel error number `EINVAL` (invalid argument). -/
def EINVAL : Int := 22

/-- Kernel error number `ENODEV` (no such device). -/
def ENODEV : Int := 19

/-- `#define APPLETB_FN_MODE_NORM 0` -/
def APPLETB_FN_MODE_NORM : Nat := 0

/-- `#define APPLETB_FN_MODE_FKEYS 1` -/
def APPLETB_FN_MODE_FKEYS : Nat := 1

/-- `#define APPLETB_FN_MODE_MAX APPLETB_FN_MODE_FKEYS` -/
def APPLETB_FN_MODE_MAX : Nat := APPLETB_FN_MODE_FKEYS

/-- Module parameter `appletb_tb_def_fn_mode = APPLETB_FN_MODE_NORM`. -/
def appletb_tb_def_fn_mode : Nat := APPLETB_FN_MODE_NORM

/-- Module parameter `appletb_tb_idle_timeout = 60` (seconds). -/
def appletb_tb_idle_timeout : Nat := 60

/-- Module parameter `appletb_tb_dim_timeout = 5` (seconds). -/
def appletb_tb_dim_timeout : Nat := 5

/-- A `struct delayed_work`: the work function pointer (`none` models NULL)
and the timer bookkeeping (whether the work is queued, and with what delay).
The payload `Unit` stands for a non-NULL function pointer; the source file
contains no worker function at all. -/
structure DelayedWork where
  func : Option Unit
  pending : Bool
  delay : Nat
deriving Repr, DecidableEq

/-- `cancel_delayed_work_sync`: after it returns the work is not queued and
any in-flight invocation has finished. -/
def cancel_delayed_work_sync (w : DelayedWork) : DelayedWork :=
  { w with pending := false }

/-- `schedule_delayed_work(w, d)`: queues the work to run after delay `d`;
if the work is already queued it does nothing. -/
def schedule_delayed_work (w : DelayedWork) (d : Nat) : DelayedWork :=
  if w.pending then w else { w with pending := true, delay := d }

/-- The fields of `struct appletb_device` that carry the controller state
(pointers to HID/USB objects and the spinlock are omitted; the lock only
serializes access, which the sequential embedding already does). -/
structure AppletbDevice where
  active : Bool
  fn_mode : Nat
  idle_timeout : Nat
  dim_timeout : Nat
  tb_mode : Nat
  tb_mode_valid : Bool
  tb_dim_state : Nat
  tb_last_activity : Nat
  tb_work : DelayedWork
deriving Repr, DecidableEq

/-- `appletb_alloc_device`: `kzalloc` zero-fills the structure, then
`INIT_DELAYED_WORK(&tb_dev->tb_work, NULL)` installs a NULL work function.
(The `log_dev` assignment touches only an omitted pointer field.) -/
def appletb_alloc_device : AppletbDevice :=
  { active := false
    fn_mode := 0
    idle_timeout := 0
    dim_timeout := 0
    tb_mode := 0
    tb_mode_valid := false
    tb_dim_state := 0
    tb_last_activity := 0
    tb_work := { func := none, pending := false, delay := 0 } }

/-- White-space test of the kernel `isspace` (used by `skip_spaces`). -/
def isSpaceC (c : Char) : Bool :=
  c = ' ' || c = '\t' || c = '\n' || c = '\x0b' || c = '\x0c' || c = '\r'

/-- Kernel `skip_spaces`: drop leading white space. -/
def skip_spaces : List Char → List Char
  | [] => []
  | c :: cs => if isSpaceC c then skip_spaces cs else c :: cs

/-- Digit accumulation of `simple_strtoul` in base 10: consume leading decimal
digits.  The C accumulator wraps modulo 2^64, and the result is then stored in
an `unsigned int`; since `(x % 2^64) % 2^32 = x % 2^32`, accumulating exactly
and reducing modulo 2^32 at the end (in `sscanf_u`) is equivalent. -/
def parse_digits : Nat → List Char → Nat
  | acc, [] => acc
  | acc, c :: cs =>
      if c.isDigit then parse_digits (acc * 10 + (c.toNat - 48)) cs else acc

/-- Width of `unsigned int`. -/
def UINT_MOD : Nat := 2 ^ 32

/-- `sscanf(buf, "%u", &v)` as implemented by the kernel `vsscanf`: skip
leading white space, then require a decimal digit (a `-` sign is only
admitted for signed conversions, so it aborts the match here), then convert
the digit run and truncate to `unsigned int`.  `none` models a return value
of 0 conversions. -/
def sscanf_u (buf : List Char) : Option Nat :=
  match skip_spaces buf with
  | [] => none
  | c :: cs =>
      if c.isDigit then some (parse_digits 0 (c :: cs) % UINT_MOD) else none

/-- `idle_timeout_show`: `snprintf(buf, PAGE_SIZE, "%u\n", tb_dev->idle_timeout)`,
abstracted to the printed value. -/
def idle_timeout_show (tb : AppletbDevice) : Nat := tb.idle_timeout

/-- `idle_timeout_store`: parse `%u`; on failure return `-EINVAL`, otherwise
assign `tb_dev->idle_timeout` and return the (positive) size. -/
def idle_timeout_store (tb : AppletbDevice) (buf : List Char) :
    Except Int AppletbDevice :=
  match sscanf_u buf with
  | none => Except.error (-EINVAL)
  | some v => Except.ok { tb with idle_timeout := v }

/-- `dim_timeout_show`, abstracted to the printed value. -/
def dim_timeout_show (tb : AppletbDevice) : Nat := tb.dim_timeout

/-- `dim_timeout_store`: parse `%u`; on failure return `-EINVAL`, otherwise
assign `tb_dev->dim_timeout`. -/
def dim_timeout_store (tb : AppletbDevice) (buf : List Char) :
    Except Int AppletbDevice :=
  match sscanf_u buf with
  | none => Except.error (-EINVAL)
  | some v => Except.ok { tb with dim_timeout := v }

/-- `fnmode_show`, abstracted to the printed value. -/
def fnmode_show (tb : AppletbDevice) : Nat := tb.fn_mode

/-- `fnmode_store`: parse `%u` and reject values above `APPLETB_FN_MODE_MAX`
with `-EINVAL`, otherwise assign `tb_dev->fn_mode`. -/
def fnmode_store (tb : AppletbDevice) (buf : List Char) :
    Except Int AppletbDevice :=
  match sscanf_u buf with
  | none => Except.error (-EINVAL)
  | some v =>
      if v > APPLETB_FN_MODE_MAX then Except.error (-EINVAL)
      else Except.ok { tb with fn_mode := v }

/-- The device state visible after a store handler: the new state on success,
the untouched prior state on `-EINVAL`. -/
def store_result (r : Except Int AppletbDevice) (tb : AppletbDevice) :
    AppletbDevice :=
  match r with
  | Except.error _ => tb
  | Except.ok tb2 => tb2

/-- `appletb_probe`: with no drvdata it fails with `-ENODEV`; if the device is
already active it returns 0 unchanged; otherwise it sets `active` and returns
0.  (The returned pair is the possibly updated state and the return code.) -/
def appletb_probe : Option AppletbDevice → Option AppletbDevice × Int
  | none => (none, -ENODEV)
  | some tb =>
      if tb.active then (some tb, 0)
      else (some { tb with active := true }, 0)

/-- `appletb_remove`: with no drvdata it returns; otherwise it clears
`active`.  Note that it does not touch `tb_work`. -/
def appletb_remove : Option AppletbDevice → Option AppletbDevice
  | none => none
  | some tb => some { tb with active := false }

/-- `appletb_suspend`: with no drvdata it returns 0; otherwise it cancels the
deferred work synchronously and returns 0. -/
def appletb_suspend : Option AppletbDevice → Option AppletbDevice × Int
  | none => (none, 0)
  | some tb =>
      (some { tb with tb_work := cancel_delayed_work_sync tb.tb_work }, 0)

/-- `appletb_reset_resume`: with no drvdata it returns 0; otherwise it
schedules the deferred work with delay 0 and returns 0. -/
def appletb_reset_resume : Option AppletbDevice → Option AppletbDevice × Int
  | none => (none, 0)
  | some tb =>
      (some { tb with tb_work := schedule_delayed_work tb.tb_work 0 }, 0)

/-- One externally triggerable operation on a live device: the three sysfs
writes and the four HID lifecycle callbacks. -/
inductive Op where
  | storeIdle (buf : List Char)
  | storeDim (buf : List Char)
  | storeFn (buf : List Char)
  | probe
  | remove
  | suspend
  | resume
deriving Repr, DecidableEq

/-- State transformer of an operation on a present device. -/
def step (op : Op) (tb : AppletbDevice) : AppletbDevice :=
  match op with
  | Op.storeIdle buf => store_result (idle_timeout_store tb buf) tb
  | Op.storeDim buf => store_result (dim_timeout_store tb buf) tb
  | Op.storeFn buf => store_result (fnmode_store tb buf) tb
  | Op.probe => ((appletb_probe (some tb)).1).getD tb
  | Op.remove => (appletb_remove (some tb)).getD tb
  | Op.suspend => ((appletb_suspend (some tb)).1).getD tb
  | Op.resume => ((appletb_reset_resume (some tb)).1).getD tb

/-- Run a sequence of operations from a starting state. -/
def run (ops : List Op) (tb : AppletbDevice) : AppletbDevice :=
  ops.foldl (fun s o => step o s) tb

/-- Display mode of the touch bar strip. -/
inductive Mode where
  | Active
  | Dimmed
  | Idle
deriving Repr, DecidableEq

set_option linter.unusedVariables false in
/-- Modelled from the spec: `ModeStateMachine.Evaluate` (spec section 4.3).
The re-evaluation worker is missing from the source tree (`tb_work` is created
with a NULL callback and no worker function exists in
`apple-ib-tb.c`), so the policy is taken from the spec text: at or past
`idle_timeout` the mode is `Idle` with no further deadline; else at or past
`dim_timeout` the mode is `Dimmed` with the time remaining until idle; else
the mode is `Active` with the time remaining until dimming.  The current mode
is an input of the spec signature but the policy does not depend on it. -/
def Evaluate (current_mode : Mode) (time_since_activity : Nat)
    (idle_timeout dim_timeout : Nat) : Mode × Option Nat :=
  if time_since_activity ≥ idle_timeout then
    (Mode.Idle, none)
  else if time_since_activity ≥ dim_timeout then
    (Mode.Dimmed, some (idle_timeout - time_since_activity))
  else
    (Mode.Active, some (dim_timeout - time_since_activity))

/-- Modelled from the spec: the ModeController state (spec sections 3 and
4.5).  The controller, the activity tracker and the pending-deadline
bookkeeping are missing from the source tree (only the trimmed lifecycle and
sysfs surface survives in `apple-ib-tb.c`). -/
structure Controller where
  enabled : Bool
  mode : Mode
  ever_active : Bool
  last_activity : Nat
  timer_deadline : Option Nat
  idle_timeout : Nat
  dim_timeout : Nat
deriving Repr, DecidableEq

/-- Modelled from the spec: `ModeController.NotifyActivity` (spec section
4.5), missing from the source tree.  Ignored if disabled; otherwise it
records activity monotonically, force-transitions the mode to `Active` and
re-arms the scheduler at `dim_timeout` out from the activity timestamp. -/
def NotifyActivity (c : Controller) (timestamp : Nat) : Controller :=
  if c.enabled then
    { c with
      mode := Mode.Active
      ever_active := true
      last_activity := max c.last_activity timestamp
      timer_deadline := some (timestamp + c.dim_timeout) }
  else c

/-- A concrete device whose deferred work is armed: the state reached from a
fresh allocation by `appletb_reset_resume`. -/
def armed_device : AppletbDevice := step Op.resume appletb_alloc_device

/-- A concrete enabled controller sitting in `Idle`. -/
def idle_controller : Controller :=
  { enabled := true
    mode := Mode.Idle
    ever_active := true
    last_activity := 10
    timer_deadline := none
    idle_timeout := 60
    dim_timeout := 5 }

/-- Each operation leaves the work-function pointer of `tb_work` unchanged
and, when the delay was 0, leaves it 0 (the only scheduling call in the file
passes delay 0). -/
theorem step_tb_work_inv (op : Op) (tb : AppletbDevice)
    (h : tb.tb_work.func = none ∧ tb.tb_work.delay = 0) :
    (step op tb).tb_work.func = none ∧ (step op tb).tb_work.delay = 0 := by
  cases op with
  | storeIdle buf =>
      simp only [step, idle_timeout_store, store_result]
      cases sscanf_u buf <;> simpa using h
  | storeDim buf =>
      simp only [step, dim_timeout_store, store_result]
      cases sscanf_u buf <;> simpa using h
  | storeFn buf =>
      simp only [step, fnmode_store, store_result]
      cases sscanf_u buf with
      | none => simpa using h
      | some v =>
          by_cases hv : v > APPLETB_FN_MODE_MAX
          · simpa [hv] using h
          · simpa [hv] using h
  | probe =>
      simp only [step, appletb_probe]
      by_cases ha : tb.active <;> simpa [ha] using h
  | remove =>
      simpa [step, appletb_remove] using h
  | suspend =>
      simpa [step, appletb_suspend, cancel_delayed_work_sync] using h
  | resume =>
      simp only [step, appletb_reset_resume, schedule_delayed_work]
      by_cases hp : tb.tb_work.pending
      · simpa [hp] using h
      · refine ⟨?_, ?_⟩ <;> simp [hp]
        exact h.1

/-- The invariant holds along every run from a fresh allocation. -/
theorem run_tb_work_inv (ops : List Op) :
    (run ops appletb_alloc_device).tb_work.func = none ∧
    (run ops appletb_alloc_device).tb_work.delay = 0 := by
  suffices h : ∀ (tb : AppletbDevice),
      tb.tb_work.func = none ∧ tb.tb_work.delay = 0 →
      (run ops tb).tb_work.func = none ∧ (run ops tb).tb_work.delay = 0 by
    exact h appletb_alloc_device ⟨rfl, rfl⟩
  induction ops with
  | nil => intro tb h; exact h
  | cons op rest ih =>
      intro tb h
      exact ih (step op tb) (step_tb_work_inv op tb h)

/-- C1: the spec requires `Disable()` (remove/suspend) to cancel the pending
deferred task synchronously before the controller is marked inactive, so that
the task never fires afterwards.  The code violates this: `appletb_remove`
clears `active` without cancelling `tb_work`, so a task armed before removal
is still pending — and can still fire — after removal completes. -/
theorem remove_leaves_deferred_task_armed :
    armed_device.tb_work.pending = true ∧
    appletb_remove (some armed_device) =
      some { armed_device with active := false } ∧
    ((appletb_remove (some armed_device)).getD armed_device).tb_work.pending
      = true := by
  decide

/-- C3: the spec requires `Enable()` (probe) on an inactive controller to
mark it active, evaluate immediately, apply the resulting mode and arm the
scheduler.  The code violates this: `appletb_probe` only sets `active` and
returns 0 — after probing a fresh device no mode has ever been applied
(`tb_mode_valid` still false) and no deferred task is armed. -/
theorem probe_performs_no_evaluation :
    appletb_probe (some appletb_alloc_device) =
      (some { appletb_alloc_device with active := true }, 0) ∧
    ((appletb_probe (some appletb_alloc_device)).1.getD
        appletb_alloc_device).tb_mode_valid = false ∧
    ((appletb_probe (some appletb_alloc_device)).1.getD
        appletb_alloc_device).tb_work.pending = false := by
  decide

/-- C2: a negative timeout string (the first character after leading white
space is a minus sign, e.g. "-1") is rejected by both timeout stores with
`-EINVAL`, and the stored value — hence what the next show reads — is
unchanged. -/
theorem timeout_store_rejects_negative (tb : AppletbDevice)
    (buf rest : List Char) (h : skip_spaces buf = '-' :: rest) :
    idle_timeout_store tb buf = Except.error (-EINVAL) ∧
    dim_timeout_store tb buf = Except.error (-EINVAL) ∧
    idle_timeout_show (store_result (idle_timeout_store tb buf) tb)
      = idle_timeout_show tb ∧
    dim_timeout_show (store_result (dim_timeout_store tb buf) tb)
      = dim_timeout_show tb := by
  have hs : sscanf_u buf = none := by
    simp [sscanf_u, h, Char.isDigit]
  simp [idle_timeout_store, dim_timeout_store, store_result, hs]

/-- Witness for C2 at the concrete input "-1". -/
theorem timeout_store_rejects_negative_witness :
    skip_spaces ['-', '1'] = '-' :: ['1'] ∧
    idle_timeout_store appletb_alloc_device ['-', '1']
      = Except.error (-EINVAL) ∧
    dim_timeout_store appletb_alloc_device ['-', '1']
      = Except.error (-EINVAL) :=
  ⟨by decide,
   (timeout_store_rejects_negative appletb_alloc_device ['-', '1'] ['1']
      (by decide)).1,
   (timeout_store_rejects_negative appletb_alloc_device ['-', '1'] ['1']
      (by decide)).2.1⟩

/-- C4: the `Evaluate` policy, for every current mode, time since activity
and configured timeouts: at or past the idle timeout the result is
`(Idle, none)`; otherwise at or past the dim timeout it is
`(Dimmed, idle_timeout - t)`; otherwise `(Active, dim_timeout - t)`. -/
theorem Evaluate_policy (m : Mode) (t idle dim : Nat) :
    (t ≥ idle → Evaluate m t idle dim = (Mode.Idle, none)) ∧
    (t < idle → t ≥ dim →
      Evaluate m t idle dim = (Mode.Dimmed, some (idle - t))) ∧
    (t < idle → t < dim →
      Evaluate m t idle dim = (Mode.Active, some (dim - t))) := by
  unfold Evaluate
  refine ⟨fun h => by simp [h], fun h1 h2 => ?_, fun h1 h2 => ?_⟩
  · rw [if_neg (by omega), if_pos h2]
  · rw [if_neg (by omega), if_neg (by omega)]

/-- Witness for C4 on the three branches, with timeouts idle=5, dim=3. -/
theorem Evaluate_policy_witness :
    (7 ≥ 5 ∧ Evaluate Mode.Active 7 5 3 = (Mode.Idle, none)) ∧
    (4 < 5 ∧ 4 ≥ 3 ∧ Evaluate Mode.Dimmed 4 5 3 = (Mode.Dimmed, some 1)) ∧
    (2 < 5 ∧ 2 < 3 ∧ Evaluate Mode.Idle 2 5 3 = (Mode.Active, some 1)) :=
  ⟨⟨by decide, (Evaluate_policy Mode.Active 7 5 3).1 (by decide)⟩,
   ⟨by decide, by decide,
    (Evaluate_policy Mode.Dimmed 4 5 3).2.1 (by decide) (by decide)⟩,
   ⟨by decide, by decide,
    (Evaluate_policy Mode.Idle 2 5 3).2.2 (by decide) (by decide)⟩⟩

/-- C5: on an enabled controller, `NotifyActivity` forces the logical mode to
`Active` and re-arms the deferred task at exactly `dim_timeout` after the
activity timestamp, whatever the current mode was. -/
theorem NotifyActivity_forces_active (c : Controller) (ts : Nat)
    (h : c.enabled = true) :
    (NotifyActivity c ts).mode = Mode.Active ∧
    (NotifyActivity c ts).timer_deadline = some (ts + c.dim_timeout) := by
  simp [NotifyActivity, h]

/-- Witness for C5: an enabled controller in `Idle` with dim timeout 5,
notified at t=100, returns to `Active` with deadline 105. -/
theorem NotifyActivity_forces_active_witness :
    idle_controller.enabled = true ∧
    (NotifyActivity idle_controller 100).mode = Mode.Active ∧
    (NotifyActivity idle_controller 100).timer_deadline = some 105 :=
  ⟨rfl, (NotifyActivity_forces_active idle_controller 100 rfl).1,
   (NotifyActivity_forces_active idle_controller 100 rfl).2⟩

/-- C6: `fnmode_store` with a parsed value above `APPLETB_FN_MODE_MAX` fails
with `-EINVAL` leaving `fn_mode` unchanged; with a value in the enum it
stores the value, which the next show returns. -/
theorem fnmode_store_validates (tb : AppletbDevice) (buf : List Char)
    (v : Nat) (h : sscanf_u buf = some v) :
    (APPLETB_FN_MODE_MAX < v →
      fnmode_store tb buf = Except.error (-EINVAL) ∧
      fnmode_show (store_result (fnmode_store tb buf) tb)
        = fnmode_show tb) ∧
    (v ≤ APPLETB_FN_MODE_MAX →
      fnmode_store tb buf = Except.ok { tb with fn_mode := v } ∧
      fnmode_show (store_result (fnmode_store tb buf) tb) = v) := by
  constructor
  · intro hv
    simp [fnmode_store, store_result, fnmode_show, h, hv]
  · intro hv
    simp [fnmode_store, store_result, fnmode_show, h, Nat.not_lt.mpr hv]

/-- Witness for C6: 2 is rejected, 1 is stored and shown. -/
theorem fnmode_store_validates_witness :
    sscanf_u ['2'] = some 2 ∧ APPLETB_FN_MODE_MAX < 2 ∧
    fnmode_store appletb_alloc_device ['2'] = Except.error (-EINVAL) ∧
    sscanf_u ['1'] = some 1 ∧ 1 ≤ APPLETB_FN_MODE_MAX ∧
    fnmode_show (store_result (fnmode_store appletb_alloc_device ['1'])
      appletb_alloc_device) = 1 :=
  ⟨by decide, by decide,
   ((fnmode_store_validates appletb_alloc_device ['2'] 2 (by decide)).1
      (by decide)).1,
   by decide, by decide,
   ((fnmode_store_validates appletb_alloc_device ['1'] 1 (by decide)).2
      (by decide)).2⟩

/-- C7: for every value accepted by a store handler, the immediately
following show returns exactly the stored value — store then show is an
identity round-trip on each of the three fields. -/
theorem store_show_roundtrip (tb : AppletbDevice) (buf : List Char)
    (v : Nat) (h : sscanf_u buf = some v) :
    idle_timeout_show (store_result (idle_timeout_store tb buf) tb) = v ∧
    dim_timeout_show (store_result (dim_timeout_store tb buf) tb) = v ∧
    (v ≤ APPLETB_FN_MODE_MAX →
      fnmode_show (store_result (fnmode_store tb buf) tb) = v) := by
  refine ⟨?_, ?_, fun hv => ?_⟩
  · simp [idle_timeout_store, store_result, idle_timeout_show, h]
  · simp [dim_timeout_store, store_result, dim_timeout_show, h]
  · simp [fnmode_store, store_result, fnmode_show, h, Nat.not_lt.mpr hv]

/-- Witness for C7 at the inputs "42" (timeouts) and "1" (fn mode). -/
theorem store_show_roundtrip_witness :
    sscanf_u ['4', '2'] = some 42 ∧
    idle_timeout_show (store_result
      (idle_timeout_store appletb_alloc_device ['4', '2'])
      appletb_alloc_device) = 42 ∧
    dim_timeout_show (store_result
      (dim_timeout_store appletb_alloc_device ['4', '2'])
      appletb_alloc_device) = 42 ∧
    sscanf_u ['1'] = some 1 ∧ 1 ≤ APPLETB_FN_MODE_MAX ∧
    fnmode_show (store_result (fnmode_store appletb_alloc_device ['1'])
      appletb_alloc_device) = 1 :=
  ⟨by decide,
   (store_show_roundtrip appletb_alloc_device ['4', '2'] 42 (by decide)).1,
   (store_show_roundtrip appletb_alloc_device ['4', '2'] 42 (by decide)).2.1,
   by decide, by decide,
   (store_show_roundtrip appletb_alloc_device ['1'] 1 (by decide)).2.2
     (by decide)⟩

/-- C8: lifecycle callbacks invoked outside their expected lifecycle are
no-ops, not fatal: `appletb_remove`, `appletb_suspend` and
`appletb_reset_resume` with no device state return (with status 0 where they
have one) touching nothing, and `appletb_probe` on an already-active device
returns 0 without changing any state. -/
theorem lifecycle_out_of_order_noop :
    appletb_remove none = none ∧
    appletb_suspend none = (none, 0) ∧
    appletb_reset_resume none = (none, 0) ∧
    ∀ tb : AppletbDevice, tb.active = true →
      appletb_probe (some tb) = (some tb, 0) := by
  refine ⟨rfl, rfl, rfl, fun tb h => ?_⟩
  simp [appletb_probe, h]

/-- Witness for C8 at a concrete active device. -/
theorem lifecycle_out_of_order_noop_witness :
    (step Op.probe appletb_alloc_device).active = true ∧
    appletb_probe (some (step Op.probe appletb_alloc_device)) =
      (some (step Op.probe appletb_alloc_device), 0) :=
  ⟨by decide,
   lifecycle_out_of_order_noop.2.2.2 (step Op.probe appletb_alloc_device)
     (by decide)⟩

/-- C9: a freshly allocated device is entirely zeroed — inactive, no mode
ever applied, `fn_mode = 0`, both timeouts 0 — and the module-parameter
defaults (`appletb_tb_idle_timeout = 60`, `appletb_tb_dim_timeout = 5`) are
never copied into the per-device fields by any operation: each of the three
config fields only ever changes to a value parsed out of a store buffer. -/
theorem alloc_zeroed_defaults_never_copied :
    (appletb_alloc_device.active = false ∧
     appletb_alloc_device.tb_mode_valid = false ∧
     appletb_alloc_device.fn_mode = 0 ∧
     appletb_alloc_device.idle_timeout = 0 ∧
     appletb_alloc_device.dim_timeout = 0) ∧
    (appletb_tb_idle_timeout = 60 ∧ appletb_tb_dim_timeout = 5) ∧
    ∀ (op : Op) (tb : AppletbDevice),
      ((step op tb).idle_timeout = tb.idle_timeout ∨
        ∃ buf, op = Op.storeIdle buf ∧
          sscanf_u buf = some (step op tb).idle_timeout) ∧
      ((step op tb).dim_timeout = tb.dim_timeout ∨
        ∃ buf, op = Op.storeDim buf ∧
          sscanf_u buf = some (step op tb).dim_timeout) ∧
      ((step op tb).fn_mode = tb.fn_mode ∨
        ∃ buf, op = Op.storeFn buf ∧
          sscanf_u buf = some (step op tb).fn_mode) := by
  refine ⟨⟨rfl, rfl, rfl, rfl, rfl⟩, ⟨rfl, rfl⟩, fun op tb => ?_⟩
  cases op with
  | storeIdle buf =>
      rcases hh : sscanf_u buf with _ | v
      · refine ⟨Or.inl ?_, Or.inl ?_, Or.inl ?_⟩ <;>
          simp [step, idle_timeout_store, store_result, hh]
      · refine ⟨Or.inr ⟨buf, rfl, ?_⟩, Or.inl ?_, Or.inl ?_⟩ <;>
          simp [step, idle_timeout_store, store_result, hh]
  | storeDim buf =>
      rcases hh : sscanf_u buf with _ | v
      · refine ⟨Or.inl ?_, Or.inl ?_, Or.inl ?_⟩ <;>
          simp [step, dim_timeout_store, store_result, hh]
      · refine ⟨Or.inl ?_, Or.inr ⟨buf, rfl, ?_⟩, Or.inl ?_⟩ <;>
          simp [step, dim_timeout_store, store_result, hh]
  | storeFn buf =>
      rcases hh : sscanf_u buf with _ | v
      · refine ⟨Or.inl ?_, Or.inl ?_, Or.inl ?_⟩ <;>
          simp [step, fnmode_store, store_result, hh]
      · by_cases hv : v > APPLETB_FN_MODE_MAX
        · refine ⟨Or.inl ?_, Or.inl ?_, Or.inl ?_⟩ <;>
            simp [step, fnmode_store, store_result, hh, hv]
        · refine ⟨Or.inl ?_, Or.inl ?_, Or.inr ⟨buf, rfl, ?_⟩⟩ <;>
            simp [step, fnmode_store, store_result, hh, hv]
  | probe =>
      refine ⟨Or.inl ?_, Or.inl ?_, Or.inl ?_⟩ <;>
        · simp only [step, appletb_probe]
          by_cases h : tb.active <;> simp [h]
  | remove =>
      refine ⟨Or.inl ?_, Or.inl ?_, Or.inl ?_⟩ <;>
        simp [step, appletb_remove]
  | suspend =>
      refine ⟨Or.inl ?_, Or.inl ?_, Or.inl ?_⟩ <;>
        simp [step, appletb_suspend, cancel_delayed_work_sync]
  | resume =>
      refine ⟨Or.inl ?_, Or.inl ?_, Or.inl ?_⟩ <;>
        · simp only [step, appletb_reset_resume, schedule_delayed_work]
          by_cases h : tb.tb_work.pending <;> simp [h]

/-- C10: the deferred work item is created with a NULL callback and no
operation ever installs one (the work-function pointer stays `none` along
every operation sequence from allocation); `appletb_reset_resume` still arms
it with delay 0, so the armed task that the scheduler would fire has no
handler. -/
theorem deferred_task_has_no_callback (ops : List Op) :
    (run ops appletb_alloc_device).tb_work.func = none ∧
    (step Op.resume (run ops appletb_alloc_device)).tb_work.pending = true ∧
    (step Op.resume (run ops appletb_alloc_device)).tb_work.delay = 0 ∧
    (step Op.resume (run ops appletb_alloc_device)).tb_work.func = none := by
  obtain ⟨hf, hd⟩ := run_tb_work_inv ops
  obtain ⟨hf2, hd2⟩ := step_tb_work_inv Op.resume _ ⟨hf, hd⟩
  refine ⟨hf, ?_, hd2, hf2⟩
  simp only [step, appletb_reset_resume, schedule_delayed_work]
  by_cases hp : (run ops appletb_alloc_device).tb_work.pending <;> simp [hp]

end AppleIbTb
